import Mathlib

/-!
# Health-check route generator (`src/go/configgenerator/routegen/health_check.go`)

A shallow embedding of `NewHealthCheckRouteGensFromOPConfig` and
`HealthCheckGenerator.GenRouteConfig`, and the properties of the route-generation
specification that concern them.

Conventions of the embedding.

* A Go string is a Lean `String`; `fmt.Sprintf("/%s", p)` is `"/" ++ p` and
  `fmt.Sprintf("%s.%s_HealthCheck", a, b)` is `a ++ "." ++ b ++ "_HealthCheck"`.
  Go compares bytes and Lean characters: "/" is one byte in UTF-8 and occurs in the
  encoding of no other character, so the two prefix tests agree.
* A Go result `([]T, error)` is a pair `List T × Option Err`: the `nil` slice and the
  empty slice are both `[]`, the `nil` error is `none`.
* The packages `httppattern`, `util`, `clustergen` and `helpers` are imported by the
  file but their code is not part of it. What the file uses of them is taken as a
  parameter (`Externals`, and the route builder `GenRoutesForMethod`), so every theorem
  below holds for all implementations of them.
* `GenRouteConfig` has a pointer receiver: the embedding takes the generator in and
  returns it next to the result (explicit state passing).
* `glog.Info` only writes a log line and is left out.
-/

namespace Routegen

/-! ## Data model -/

/-- Go `strings.HasPrefix(s, pre)`: `s` begins with `pre`. -/
def strings.HasPrefix (s pre : String) : Bool :=
  pre.data.isPrefixOf s.data

/-- The fields of `options.ConfigGeneratorOptions` that the file reads by name; every
other field of the options value is kept in `Rest`. -/
structure ConfigGeneratorOptions (Other : Type) where
  Healthz : String
  HealthCheckAutogeneratedOperationPrefix : String
  HealthCheckOperation : String
  Rest : Other

/-- Go `httppattern.Pattern`, as built at lines 67-70. -/
structure Pattern (UT : Type) where
  HttpMethod : String
  UriTemplate : UT

/-- Go `helpers.MethodCfg`, as built at lines 73-78. -/
structure MethodCfg (UT Dur : Type) where
  OperationName : String
  BackendClusterName : String
  Deadline : Dur
  HTTPPattern : Pattern UT

/-- Go `HealthCheckGenerator` (lines 19-29). -/
structure HealthCheckGenerator (BRG : Type) where
  HealthzPath : String
  AutogeneratedOperationPrefix : String
  ESPOperationAPI : String
  LocalBackendClusterName : String
  BackendRouteGen : BRG

/-- What the file imports from other packages, apart from the route builder:
`util.GET`, `util.DefaultResponseDeadline`, `httppattern.ParseUriTemplate`
(the URI template compiler; `.error` is a non-nil `err`),
`clustergen.MakeLocalBackendClusterName` (the cluster-name resolver) and
`helpers.NewBackendRouteGeneratorFromOPConfig`. -/
structure Externals (Svc Other BRG UT Dur Err : Type) where
  GET : String
  DefaultResponseDeadline : Dur
  ParseUriTemplate : String → Except Err UT
  MakeLocalBackendClusterName : Svc → String
  NewBackendRouteGeneratorFromOPConfig : ConfigGeneratorOptions Other → BRG

section Code

variable {Svc Other BRG UT Dur Err Route : Type}

/-! ## The two functions of the file -/

/-- Go `NewHealthCheckRouteGensFromOPConfig` (lines 34-51). -/
def NewHealthCheckRouteGensFromOPConfig (X : Externals Svc Other BRG UT Dur Err)
    (serviceConfig : Svc) (opts : ConfigGeneratorOptions Other) :
    List (HealthCheckGenerator BRG) × Option Err :=
  if opts.Healthz = "" then
    ([], none)
  else
    ([{ HealthzPath := opts.Healthz
        AutogeneratedOperationPrefix := opts.HealthCheckAutogeneratedOperationPrefix
        ESPOperationAPI := opts.HealthCheckOperation
        LocalBackendClusterName := X.MakeLocalBackendClusterName serviceConfig
        BackendRouteGen := X.NewBackendRouteGeneratorFromOPConfig opts }], none)

/-- Go `(g *HealthCheckGenerator) GenRouteConfig` (lines 56-81). The argument
`GenRoutesForMethod` is the method of that name of `helpers.BackendRouteGenerator`,
the route builder. The second component of the result is the receiver after the call. -/
def GenRouteConfig (X : Externals Svc Other BRG UT Dur Err)
    (GenRoutesForMethod : BRG → MethodCfg UT Dur → List Route × Option Err)
    (g : HealthCheckGenerator BRG) :
    (List Route × Option Err) × HealthCheckGenerator BRG :=
  let healthzPath := g.HealthzPath
  let healthzPath :=
    if !strings.HasPrefix healthzPath "/" then "/" ++ healthzPath else healthzPath
  match X.ParseUriTemplate healthzPath with
  | .error err => (([], some err), g)
  | .ok uriTemplate =>
    let httpRule : Pattern UT :=
      { HttpMethod := X.GET
        UriTemplate := uriTemplate }
    let operationName := g.ESPOperationAPI ++ "." ++ g.AutogeneratedOperationPrefix ++ "_HealthCheck"
    let methodCfg : MethodCfg UT Dur :=
      { OperationName := operationName
        BackendClusterName := g.LocalBackendClusterName
        Deadline := X.DefaultResponseDeadline
        HTTPPattern := httpRule }
    (GenRoutesForMethod g.BackendRouteGen methodCfg, g)

/-! ## Names for the intermediate values of `GenRouteConfig` -/

/-- The value of `healthzPath` after lines 57-60 of `GenRouteConfig`: the string that
is given to `ParseUriTemplate`. -/
def normalizedHealthzPath (p : String) : String :=
  if !strings.HasPrefix p "/" then "/" ++ p else p

/-- The value of `methodCfg` after lines 67-78 of `GenRouteConfig`, for the compiled
template `uriTemplate`. -/
def healthCheckMethodCfg (X : Externals Svc Other BRG UT Dur Err)
    (g : HealthCheckGenerator BRG) (uriTemplate : UT) : MethodCfg UT Dur :=
  { OperationName := g.ESPOperationAPI ++ "." ++ g.AutogeneratedOperationPrefix ++ "_HealthCheck"
    BackendClusterName := g.LocalBackendClusterName
    Deadline := X.DefaultResponseDeadline
    HTTPPattern := { HttpMethod := X.GET, UriTemplate := uriTemplate } }

/-- The generator `g` hands `cfg` to the route builder: whatever the builder (and its
route type) is, `GenRouteConfig` returns the builder's result at
`g.BackendRouteGen` and `cfg`, and leaves `g` as it was. Quantifying over all
builders makes `cfg` the value the builder is really called with
(see `HandsOver_unique`). -/
def HandsOver (X : Externals Svc Other BRG UT Dur Err) (g : HealthCheckGenerator BRG)
    (cfg : MethodCfg UT Dur) : Prop :=
  ∀ (Route : Type) (gen : BRG → MethodCfg UT Dur → List Route × Option Err),
    GenRouteConfig X gen g = (gen g.BackendRouteGen cfg, g)

end Code

/-! ## The route builder of the specification

`helpers.BackendRouteGenerator.GenRoutesForMethod` is called by `GenRouteConfig` but its
code is not in `health_check.go`. Section 4.2 of the specification gives its contract. -/

/-- Modelled from the spec: the error taxonomy of section 7 (`ParseError` of the URI
template compiler, `GenerationError` of the route builder); the Go code has the one
type `error` for both. -/
inductive GenError where
  | ParseError
  | GenerationError

/-- Modelled from the spec: `RouteDescriptor` of section 3, the output of the route
builder: match criteria derived from the `HttpPattern` (method and compiled path),
target cluster, timeout and operation identifier. -/
structure RouteDescriptor (UT Dur : Type) where
  Match : Pattern UT
  Cluster : String
  Timeout : Dur
  OperationId : String

/-- Modelled from the spec: the Route Builder `build(cfg)` of section 4.2, which is
`helpers.BackendRouteGenerator.GenRoutesForMethod`, code that `health_check.go` calls
and does not contain. It fails with `GenerationError` when the target cluster name is
empty and produces one `RouteDescriptor` per `MethodConfig` otherwise. The other
failure of section 4.2, a template that failed to compile upstream, has no
representation: a `Pattern` here always holds a compiled template. -/
def helpers.GenRoutesForMethod {BRG UT Dur : Type} (_ : BRG) (cfg : MethodCfg UT Dur) :
    List (RouteDescriptor UT Dur) × Option GenError :=
  if cfg.BackendClusterName = "" then
    ([], some GenError.GenerationError)
  else
    ([{ Match := cfg.HTTPPattern
        Cluster := cfg.BackendClusterName
        Timeout := cfg.Deadline
        OperationId := cfg.OperationName }], none)

/-! ## Concrete instances used to evaluate the code -/

/-- A compiler that accepts every string and keeps it as the template. -/
def sampleExternals (Err : Type) : Externals Unit Unit Unit String Nat Err :=
  { GET := "GET"
    DefaultResponseDeadline := 15
    ParseUriTemplate := fun s => .ok s
    MakeLocalBackendClusterName := fun _ => "backend-cluster"
    NewBackendRouteGeneratorFromOPConfig := fun _ => () }

/-- A compiler that rejects every string, with the string as the error. -/
def rejectingExternals : Externals Unit Unit Unit String Nat String :=
  { sampleExternals String with ParseUriTemplate := fun s => .error s }

/-- An options value with the health path `healthz`. -/
def sampleOptions (healthz : String) : ConfigGeneratorOptions Unit :=
  { Healthz := healthz
    HealthCheckAutogeneratedOperationPrefix := "Autogen"
    HealthCheckOperation := "myapi.endpoints.example.com"
    Rest := () }

/-- A builder that returns the configuration it is called with. -/
def echoBuilder {BRG UT Dur Err : Type} (_ : BRG) (cfg : MethodCfg UT Dur) :
    List (MethodCfg UT Dur) × Option Err :=
  ([cfg], none)

/-- The generator of the specification's example. -/
def statusGenerator : HealthCheckGenerator Unit :=
  { HealthzPath := "/status"
    AutogeneratedOperationPrefix := "Autogen"
    ESPOperationAPI := "myapi.endpoints.example.com"
    LocalBackendClusterName := "backend-cluster"
    BackendRouteGen := () }

/-- The generator of the example with an empty local cluster name. -/
def noClusterGenerator : HealthCheckGenerator Unit :=
  { statusGenerator with LocalBackendClusterName := "" }

/-- A generator built directly with an empty path. -/
def emptyPathGenerator : HealthCheckGenerator Unit :=
  { statusGenerator with HealthzPath := "" }

section Theorems

variable {Svc Other BRG UT Dur Err Route : Type}

/-! ## Shared lemmas -/

theorem GenRouteConfig_normalized (X : Externals Svc Other BRG UT Dur Err)
    (gen : BRG → MethodCfg UT Dur → List Route × Option Err) (g : HealthCheckGenerator BRG) :
    GenRouteConfig X gen g =
      match X.ParseUriTemplate (normalizedHealthzPath g.HealthzPath) with
      | .error err => (([], some err), g)
      | .ok uriTemplate => (gen g.BackendRouteGen (healthCheckMethodCfg X g uriTemplate), g) := by
  rfl

theorem GenRouteConfig_of_error (X : Externals Svc Other BRG UT Dur Err)
    (gen : BRG → MethodCfg UT Dur → List Route × Option Err) (g : HealthCheckGenerator BRG)
    (err : Err) (h : X.ParseUriTemplate (normalizedHealthzPath g.HealthzPath) = .error err) :
    GenRouteConfig X gen g = (([], some err), g) := by
  rw [GenRouteConfig_normalized, h]

theorem GenRouteConfig_of_ok (X : Externals Svc Other BRG UT Dur Err)
    (gen : BRG → MethodCfg UT Dur → List Route × Option Err) (g : HealthCheckGenerator BRG)
    (ut : UT) (h : X.ParseUriTemplate (normalizedHealthzPath g.HealthzPath) = .ok ut) :
    GenRouteConfig X gen g = (gen g.BackendRouteGen (healthCheckMethodCfg X g ut), g) := by
  rw [GenRouteConfig_normalized, h]

theorem handsOver_of_ok (X : Externals Svc Other BRG UT Dur Err) (g : HealthCheckGenerator BRG)
    (ut : UT) (h : X.ParseUriTemplate (normalizedHealthzPath g.HealthzPath) = .ok ut) :
    HandsOver X g (healthCheckMethodCfg X g ut) :=
  fun _ gen => GenRouteConfig_of_ok X gen g ut h

/-- The configuration handed to the builder is unique. -/
theorem HandsOver_unique (X : Externals Svc Other BRG UT Dur Err) (g : HealthCheckGenerator BRG)
    (cfg cfg' : MethodCfg UT Dur) (h : HandsOver X g cfg) (h' : HandsOver X g cfg') :
    cfg = cfg' := by
  have e := (h (MethodCfg UT Dur) echoBuilder).symm.trans (h' (MethodCfg UT Dur) echoBuilder)
  simpa [echoBuilder] using e

theorem hasPrefix_slash_cons (p : String) : strings.HasPrefix ("/" ++ p) "/" = true := by
  simp [strings.HasPrefix]

theorem normalizedHealthzPath_of_not_slash (p : String) (h : strings.HasPrefix p "/" = false) :
    normalizedHealthzPath p = "/" ++ p := by
  simp [normalizedHealthzPath, h]

theorem normalizedHealthzPath_of_slash (p : String) (h : strings.HasPrefix p "/" = true) :
    normalizedHealthzPath p = p := by
  simp [normalizedHealthzPath, h]

theorem hasPrefix_normalizedHealthzPath (p : String) :
    strings.HasPrefix (normalizedHealthzPath p) "/" = true := by
  cases h : strings.HasPrefix p "/"
  · rw [normalizedHealthzPath_of_not_slash p h]; exact hasPrefix_slash_cons p
  · rw [normalizedHealthzPath_of_slash p h]; exact h

/-! ## Claims -/

/-- C1: with an empty `Healthz` path the factory returns no generator and no error,
whatever the service config and the other option fields are; hence no call of
`GenRouteConfig` is made for the variant, which contributes no result at all
(no route, no error). -/
theorem C1_empty_healthz_no_generators (X : Externals Svc Other BRG UT Dur Err)
    (gen : BRG → MethodCfg UT Dur → List Route × Option Err)
    (serviceConfig : Svc) (opts : ConfigGeneratorOptions Other) (h : opts.Healthz = "") :
    NewHealthCheckRouteGensFromOPConfig X serviceConfig opts = ([], none) ∧
    (NewHealthCheckRouteGensFromOPConfig X serviceConfig opts).1.map
      (fun g => (GenRouteConfig X gen g).1) = [] := by
  simp [NewHealthCheckRouteGensFromOPConfig, h]

theorem C1_empty_healthz_no_generators_witness :
    (sampleOptions "").Healthz = "" ∧
    NewHealthCheckRouteGensFromOPConfig (sampleExternals String) () (sampleOptions "")
      = ([], none) ∧
    (NewHealthCheckRouteGensFromOPConfig (sampleExternals String) () (sampleOptions "")).1.map
      (fun g => (GenRouteConfig (sampleExternals String)
        (echoBuilder : Unit → MethodCfg String Nat → _ × Option String) g).1) = [] :=
  ⟨rfl, C1_empty_healthz_no_generators (sampleExternals String) echoBuilder () (sampleOptions "") rfl⟩

/-- C2: when the normalised path compiles, the `MethodCfg` handed to the route builder
has `OperationName = ESPOperationAPI ++ "." ++ AutogeneratedOperationPrefix ++
"_HealthCheck"` (for all field values, empty strings included); any other generator
with the same API name and the same prefix, whatever its path, cluster name and
builder configuration, hands over the same name. -/
theorem C2_operation_name (X : Externals Svc Other BRG UT Dur Err)
    (g : HealthCheckGenerator BRG) (ut : UT)
    (h : X.ParseUriTemplate (normalizedHealthzPath g.HealthzPath) = .ok ut) :
    ∃ cfg : MethodCfg UT Dur, HandsOver X g cfg ∧
      cfg.OperationName =
        g.ESPOperationAPI ++ "." ++ g.AutogeneratedOperationPrefix ++ "_HealthCheck" ∧
      ∀ (g' : HealthCheckGenerator BRG) (ut' : UT),
        X.ParseUriTemplate (normalizedHealthzPath g'.HealthzPath) = .ok ut' →
        g'.ESPOperationAPI = g.ESPOperationAPI →
        g'.AutogeneratedOperationPrefix = g.AutogeneratedOperationPrefix →
        ∃ cfg' : MethodCfg UT Dur, HandsOver X g' cfg' ∧
          cfg'.OperationName = cfg.OperationName := by
  refine ⟨healthCheckMethodCfg X g ut, handsOver_of_ok X g ut h, rfl, ?_⟩
  intro g' ut' h' hapi hpre
  refine ⟨healthCheckMethodCfg X g' ut', handsOver_of_ok X g' ut' h', ?_⟩
  simp [healthCheckMethodCfg, hapi, hpre]

theorem C2_operation_name_witness :
    (sampleExternals String).ParseUriTemplate (normalizedHealthzPath statusGenerator.HealthzPath)
      = .ok "/status" ∧
    ∃ cfg : MethodCfg String Nat, HandsOver (sampleExternals String) statusGenerator cfg ∧
      cfg.OperationName =
        statusGenerator.ESPOperationAPI ++ "." ++ statusGenerator.AutogeneratedOperationPrefix
          ++ "_HealthCheck" ∧
      ∀ (g' : HealthCheckGenerator Unit) (ut' : String),
        (sampleExternals String).ParseUriTemplate (normalizedHealthzPath g'.HealthzPath)
          = .ok ut' →
        g'.ESPOperationAPI = statusGenerator.ESPOperationAPI →
        g'.AutogeneratedOperationPrefix = statusGenerator.AutogeneratedOperationPrefix →
        ∃ cfg' : MethodCfg String Nat, HandsOver (sampleExternals String) g' cfg' ∧
          cfg'.OperationName = cfg.OperationName :=
  ⟨rfl, C2_operation_name (sampleExternals String) statusGenerator "/status" rfl⟩

/-- C3: when the compiler fails on the normalised path with `err`, `GenRouteConfig`
returns no routes and exactly `err`, for every route builder; so two builders give
the same result. -/
theorem C3_compile_error_propagates (X : Externals Svc Other BRG UT Dur Err)
    (g : HealthCheckGenerator BRG) (err : Err)
    (h : X.ParseUriTemplate (normalizedHealthzPath g.HealthzPath) = .error err) :
    (∀ (Route : Type) (gen : BRG → MethodCfg UT Dur → List Route × Option Err),
      (GenRouteConfig X gen g).1 = ([], some err)) ∧
    (∀ (Route : Type) (gen gen' : BRG → MethodCfg UT Dur → List Route × Option Err),
      GenRouteConfig X gen g = GenRouteConfig X gen' g) := by
  constructor
  · intro Route gen
    rw [GenRouteConfig_of_error X gen g err h]
  · intro Route gen gen'
    rw [GenRouteConfig_of_error X gen g err h, GenRouteConfig_of_error X gen' g err h]

theorem C3_compile_error_propagates_witness :
    rejectingExternals.ParseUriTemplate (normalizedHealthzPath statusGenerator.HealthzPath)
      = .error "/status" ∧
    ((∀ (Route : Type) (gen : Unit → MethodCfg String Nat → List Route × Option String),
      (GenRouteConfig rejectingExternals gen statusGenerator).1 = ([], some "/status")) ∧
    (∀ (Route : Type) (gen gen' : Unit → MethodCfg String Nat → List Route × Option String),
      GenRouteConfig rejectingExternals gen statusGenerator
        = GenRouteConfig rejectingExternals gen' statusGenerator)) :=
  ⟨rfl, C3_compile_error_propagates rejectingExternals statusGenerator "/status" rfl⟩

/-- C4: for a path `p` that does not start with "/", the generators with
`HealthzPath = p` and with `HealthzPath = "/" ++ p` (other fields equal) both give the
compiler the string `"/" ++ p` (the result of each is the compiler's error there, or
the builder's result for the template compiled there) and `GenRouteConfig` returns the
same result for both; a generator whose path `q` starts with "/" gives the compiler
`q` itself; and normalising twice is normalising once. -/
theorem C4_leading_slash_normalisation (X : Externals Svc Other BRG UT Dur Err)
    (gen : BRG → MethodCfg UT Dur → List Route × Option Err)
    (g : HealthCheckGenerator BRG) (p q : String)
    (h : strings.HasPrefix p "/" = false) (hq : strings.HasPrefix q "/" = true) :
    (GenRouteConfig X gen { g with HealthzPath := p } =
      match X.ParseUriTemplate ("/" ++ p) with
      | .error err => (([], some err), { g with HealthzPath := p })
      | .ok ut =>
        (gen g.BackendRouteGen
          { OperationName :=
              g.ESPOperationAPI ++ "." ++ g.AutogeneratedOperationPrefix ++ "_HealthCheck"
            BackendClusterName := g.LocalBackendClusterName
            Deadline := X.DefaultResponseDeadline
            HTTPPattern := { HttpMethod := X.GET, UriTemplate := ut } },
          { g with HealthzPath := p })) ∧
    (GenRouteConfig X gen { g with HealthzPath := "/" ++ p } =
      match X.ParseUriTemplate ("/" ++ p) with
      | .error err => (([], some err), { g with HealthzPath := "/" ++ p })
      | .ok ut =>
        (gen g.BackendRouteGen
          { OperationName :=
              g.ESPOperationAPI ++ "." ++ g.AutogeneratedOperationPrefix ++ "_HealthCheck"
            BackendClusterName := g.LocalBackendClusterName
            Deadline := X.DefaultResponseDeadline
            HTTPPattern := { HttpMethod := X.GET, UriTemplate := ut } },
          { g with HealthzPath := "/" ++ p })) ∧
    (GenRouteConfig X gen { g with HealthzPath := p }).1 =
      (GenRouteConfig X gen { g with HealthzPath := "/" ++ p }).1 ∧
    (GenRouteConfig X gen { g with HealthzPath := q } =
      match X.ParseUriTemplate q with
      | .error err => (([], some err), { g with HealthzPath := q })
      | .ok ut =>
        (gen g.BackendRouteGen
          { OperationName :=
              g.ESPOperationAPI ++ "." ++ g.AutogeneratedOperationPrefix ++ "_HealthCheck"
            BackendClusterName := g.LocalBackendClusterName
            Deadline := X.DefaultResponseDeadline
            HTTPPattern := { HttpMethod := X.GET, UriTemplate := ut } },
          { g with HealthzPath := q })) ∧
    normalizedHealthzPath p = "/" ++ p ∧
    normalizedHealthzPath ("/" ++ p) = "/" ++ p ∧
    normalizedHealthzPath q = q ∧
    (∀ r : String, normalizedHealthzPath (normalizedHealthzPath r) = normalizedHealthzPath r) := by
  have h1 := normalizedHealthzPath_of_not_slash p h
  have h2 := normalizedHealthzPath_of_slash ("/" ++ p) (hasPrefix_slash_cons p)
  have h3 := normalizedHealthzPath_of_slash q hq
  refine ⟨?_, ?_, ?_, ?_, h1, h2, h3, ?_⟩
  · rw [GenRouteConfig_normalized]
    simp only [h1]
    cases X.ParseUriTemplate ("/" ++ p) <;> rfl
  · rw [GenRouteConfig_normalized]
    simp only [h2]
    cases X.ParseUriTemplate ("/" ++ p) <;> rfl
  · rw [GenRouteConfig_normalized, GenRouteConfig_normalized]
    simp only [h1, h2]
    cases X.ParseUriTemplate ("/" ++ p) <;> rfl
  · rw [GenRouteConfig_normalized]
    simp only [h3]
    cases X.ParseUriTemplate q <;> rfl
  · intro r
    exact normalizedHealthzPath_of_slash _ (hasPrefix_normalizedHealthzPath r)

theorem C4_leading_slash_normalisation_witness :
    strings.HasPrefix "healthz" "/" = false ∧
    strings.HasPrefix "/status" "/" = true ∧
    (GenRouteConfig (sampleExternals String)
        (echoBuilder : Unit → MethodCfg String Nat → _ × Option String)
        { statusGenerator with HealthzPath := "healthz" } =
      (([{ OperationName := "myapi.endpoints.example.com.Autogen_HealthCheck"
           BackendClusterName := "backend-cluster"
           Deadline := 15
           HTTPPattern := { HttpMethod := "GET", UriTemplate := "/healthz" } }], none),
        { statusGenerator with HealthzPath := "healthz" })) ∧
    (GenRouteConfig (sampleExternals String)
        (echoBuilder : Unit → MethodCfg String Nat → _ × Option String)
        { statusGenerator with HealthzPath := "/healthz" } =
      (([{ OperationName := "myapi.endpoints.example.com.Autogen_HealthCheck"
           BackendClusterName := "backend-cluster"
           Deadline := 15
           HTTPPattern := { HttpMethod := "GET", UriTemplate := "/healthz" } }], none),
        { statusGenerator with HealthzPath := "/healthz" })) ∧
    (GenRouteConfig (sampleExternals String)
        (echoBuilder : Unit → MethodCfg String Nat → _ × Option String)
        { statusGenerator with HealthzPath := "healthz" }).1 =
      (GenRouteConfig (sampleExternals String) echoBuilder
        { statusGenerator with HealthzPath := "/healthz" }).1 ∧
    (GenRouteConfig (sampleExternals String)
        (echoBuilder : Unit → MethodCfg String Nat → _ × Option String)
        { statusGenerator with HealthzPath := "/status" } =
      (([{ OperationName := "myapi.endpoints.example.com.Autogen_HealthCheck"
           BackendClusterName := "backend-cluster"
           Deadline := 15
           HTTPPattern := { HttpMethod := "GET", UriTemplate := "/status" } }], none),
        { statusGenerator with HealthzPath := "/status" })) ∧
    normalizedHealthzPath "healthz" = "/healthz" ∧
    normalizedHealthzPath "/healthz" = "/healthz" ∧
    normalizedHealthzPath "/status" = "/status" ∧
    (∀ r : String, normalizedHealthzPath (normalizedHealthzPath r) = normalizedHealthzPath r) :=
  ⟨rfl, rfl, C4_leading_slash_normalisation (sampleExternals String) echoBuilder statusGenerator
    "healthz" "/status" rfl rfl⟩

/-- C5: when the normalised path compiles, the `MethodCfg` handed to the route builder
has `BackendClusterName = LocalBackendClusterName`; any other generator with the same
local cluster name, whatever its path, prefix and API name, hands over the same
cluster; and every generator made by `NewHealthCheckRouteGensFromOPConfig` has
`MakeLocalBackendClusterName serviceConfig` as its local cluster name and hands that
name over. -/
theorem C5_backend_cluster_is_local (X : Externals Svc Other BRG UT Dur Err)
    (g : HealthCheckGenerator BRG) (ut : UT)
    (h : X.ParseUriTemplate (normalizedHealthzPath g.HealthzPath) = .ok ut) :
    (∃ cfg : MethodCfg UT Dur, HandsOver X g cfg ∧
      cfg.BackendClusterName = g.LocalBackendClusterName ∧
      ∀ (g' : HealthCheckGenerator BRG) (ut' : UT),
        X.ParseUriTemplate (normalizedHealthzPath g'.HealthzPath) = .ok ut' →
        g'.LocalBackendClusterName = g.LocalBackendClusterName →
        ∃ cfg' : MethodCfg UT Dur, HandsOver X g' cfg' ∧
          cfg'.BackendClusterName = cfg.BackendClusterName) ∧
    (∀ (serviceConfig : Svc) (opts : ConfigGeneratorOptions Other) (g0 : HealthCheckGenerator BRG),
      g0 ∈ (NewHealthCheckRouteGensFromOPConfig X serviceConfig opts).1 →
      g0.LocalBackendClusterName = X.MakeLocalBackendClusterName serviceConfig ∧
      ∀ ut0 : UT, X.ParseUriTemplate (normalizedHealthzPath g0.HealthzPath) = .ok ut0 →
        ∃ cfg0 : MethodCfg UT Dur, HandsOver X g0 cfg0 ∧
          cfg0.BackendClusterName = X.MakeLocalBackendClusterName serviceConfig) := by
  refine ⟨⟨healthCheckMethodCfg X g ut, handsOver_of_ok X g ut h, rfl, ?_⟩, ?_⟩
  · intro g' ut' h' hcl
    exact ⟨healthCheckMethodCfg X g' ut', handsOver_of_ok X g' ut' h', hcl⟩
  · intro serviceConfig opts g0 hmem
    have hname : g0.LocalBackendClusterName = X.MakeLocalBackendClusterName serviceConfig := by
      unfold NewHealthCheckRouteGensFromOPConfig at hmem
      split at hmem
      · simp at hmem
      · simp only [List.mem_singleton] at hmem
        rw [hmem]
    refine ⟨hname, ?_⟩
    intro ut0 h0
    exact ⟨healthCheckMethodCfg X g0 ut0, handsOver_of_ok X g0 ut0 h0, hname⟩

theorem C5_backend_cluster_is_local_witness :
    (sampleExternals String).ParseUriTemplate (normalizedHealthzPath statusGenerator.HealthzPath)
      = .ok "/status" ∧
    ((∃ cfg : MethodCfg String Nat, HandsOver (sampleExternals String) statusGenerator cfg ∧
      cfg.BackendClusterName = statusGenerator.LocalBackendClusterName ∧
      ∀ (g' : HealthCheckGenerator Unit) (ut' : String),
        (sampleExternals String).ParseUriTemplate (normalizedHealthzPath g'.HealthzPath)
          = .ok ut' →
        g'.LocalBackendClusterName = statusGenerator.LocalBackendClusterName →
        ∃ cfg' : MethodCfg String Nat, HandsOver (sampleExternals String) g' cfg' ∧
          cfg'.BackendClusterName = cfg.BackendClusterName) ∧
    (∀ (serviceConfig : Unit) (opts : ConfigGeneratorOptions Unit) (g0 : HealthCheckGenerator Unit),
      g0 ∈ (NewHealthCheckRouteGensFromOPConfig (sampleExternals String) serviceConfig opts).1 →
      g0.LocalBackendClusterName
        = (sampleExternals String).MakeLocalBackendClusterName serviceConfig ∧
      ∀ ut0 : String,
        (sampleExternals String).ParseUriTemplate (normalizedHealthzPath g0.HealthzPath)
          = .ok ut0 →
        ∃ cfg0 : MethodCfg String Nat, HandsOver (sampleExternals String) g0 cfg0 ∧
          cfg0.BackendClusterName
            = (sampleExternals String).MakeLocalBackendClusterName serviceConfig)) :=
  ⟨rfl, C5_backend_cluster_is_local (sampleExternals String) statusGenerator "/status" rfl⟩

/-- C6: when the normalised paths of two generators compile, whatever their fields
are, the `MethodCfg` each hands to the route builder has HTTP method `util.GET` and
deadline `util.DefaultResponseDeadline`, so the two agree on both, and the template of
each pattern is the compiler's output for its normalised path. -/
theorem C6_method_deadline_template (X : Externals Svc Other BRG UT Dur Err)
    (g g' : HealthCheckGenerator BRG) (ut ut' : UT)
    (h : X.ParseUriTemplate (normalizedHealthzPath g.HealthzPath) = .ok ut)
    (h' : X.ParseUriTemplate (normalizedHealthzPath g'.HealthzPath) = .ok ut') :
    ∃ cfg cfg' : MethodCfg UT Dur, HandsOver X g cfg ∧ HandsOver X g' cfg' ∧
      cfg.HTTPPattern.HttpMethod = X.GET ∧
      cfg.Deadline = X.DefaultResponseDeadline ∧
      cfg.HTTPPattern.UriTemplate = ut ∧
      cfg'.HTTPPattern.UriTemplate = ut' ∧
      cfg'.HTTPPattern.HttpMethod = cfg.HTTPPattern.HttpMethod ∧
      cfg'.Deadline = cfg.Deadline :=
  ⟨healthCheckMethodCfg X g ut, healthCheckMethodCfg X g' ut', handsOver_of_ok X g ut h,
    handsOver_of_ok X g' ut' h', rfl, rfl, rfl, rfl, rfl, rfl⟩

theorem C6_method_deadline_template_witness :
    (sampleExternals String).ParseUriTemplate (normalizedHealthzPath statusGenerator.HealthzPath)
      = .ok "/status" ∧
    (sampleExternals String).ParseUriTemplate (normalizedHealthzPath emptyPathGenerator.HealthzPath)
      = .ok "/" ∧
    ∃ cfg cfg' : MethodCfg String Nat,
      HandsOver (sampleExternals String) statusGenerator cfg ∧
      HandsOver (sampleExternals String) emptyPathGenerator cfg' ∧
      cfg.HTTPPattern.HttpMethod = (sampleExternals String).GET ∧
      cfg.Deadline = (sampleExternals String).DefaultResponseDeadline ∧
      cfg.HTTPPattern.UriTemplate = "/status" ∧
      cfg'.HTTPPattern.UriTemplate = "/" ∧
      cfg'.HTTPPattern.HttpMethod = cfg.HTTPPattern.HttpMethod ∧
      cfg'.Deadline = cfg.Deadline :=
  ⟨rfl, rfl, C6_method_deadline_template (sampleExternals String) statusGenerator
    emptyPathGenerator "/status" "/" rfl rfl⟩

/-- C7: with a non-empty `Healthz` path the factory returns no error and exactly one
generator, whose `HealthzPath` is `opts.Healthz` as given (not normalised), whose prefix
is `opts.HealthCheckAutogeneratedOperationPrefix`, whose API name is
`opts.HealthCheckOperation` and whose local cluster name is the resolver's name for the
service config; the compiler is not consulted, so this also holds for a path the
compiler rejects. -/
theorem C7_factory_one_generator (X : Externals Svc Other BRG UT Dur Err)
    (serviceConfig : Svc) (opts : ConfigGeneratorOptions Other) (h : opts.Healthz ≠ "") :
    NewHealthCheckRouteGensFromOPConfig X serviceConfig opts =
      ([{ HealthzPath := opts.Healthz
          AutogeneratedOperationPrefix := opts.HealthCheckAutogeneratedOperationPrefix
          ESPOperationAPI := opts.HealthCheckOperation
          LocalBackendClusterName := X.MakeLocalBackendClusterName serviceConfig
          BackendRouteGen := X.NewBackendRouteGeneratorFromOPConfig opts }], none) ∧
    (NewHealthCheckRouteGensFromOPConfig X serviceConfig opts).1.length = 1 ∧
    (NewHealthCheckRouteGensFromOPConfig X serviceConfig opts).2 = none ∧
    (∀ parse : String → Except Err UT,
      NewHealthCheckRouteGensFromOPConfig { X with ParseUriTemplate := parse } serviceConfig opts
        = NewHealthCheckRouteGensFromOPConfig X serviceConfig opts) := by
  simp [NewHealthCheckRouteGensFromOPConfig, h]

theorem C7_factory_one_generator_witness :
    (sampleOptions "healthz").Healthz ≠ "" ∧
    rejectingExternals.ParseUriTemplate (normalizedHealthzPath (sampleOptions "healthz").Healthz)
      = .error "/healthz" ∧
    (NewHealthCheckRouteGensFromOPConfig rejectingExternals () (sampleOptions "healthz") =
      ([{ HealthzPath := "healthz"
          AutogeneratedOperationPrefix := "Autogen"
          ESPOperationAPI := "myapi.endpoints.example.com"
          LocalBackendClusterName := "backend-cluster"
          BackendRouteGen := () }], none) ∧
    (NewHealthCheckRouteGensFromOPConfig rejectingExternals () (sampleOptions "healthz")).1.length
      = 1 ∧
    (NewHealthCheckRouteGensFromOPConfig rejectingExternals () (sampleOptions "healthz")).2
      = none ∧
    (∀ parse : String → Except String String,
      NewHealthCheckRouteGensFromOPConfig { rejectingExternals with ParseUriTemplate := parse }
          () (sampleOptions "healthz")
        = NewHealthCheckRouteGensFromOPConfig rejectingExternals () (sampleOptions "healthz"))) :=
  ⟨by decide, rfl,
    C7_factory_one_generator rejectingExternals () (sampleOptions "healthz") (by decide)⟩

/-- C8 (as amended), against the route builder of the specification: with
`HealthzPath` non-empty, its normalised form compilable and `LocalBackendClusterName`
non-empty, `GenRouteConfig` returns no error and exactly one `RouteDescriptor`, with
method `util.GET`, the compiled path, the operation identifier
`ESPOperationAPI ++ "." ++ AutogeneratedOperationPrefix ++ "_HealthCheck"`, the local
cluster and the default deadline. -/
theorem C8_one_route_descriptor (X : Externals Svc Other BRG UT Dur GenError)
    (g : HealthCheckGenerator BRG) (ut : UT) (_hne : g.HealthzPath ≠ "")
    (h : X.ParseUriTemplate (normalizedHealthzPath g.HealthzPath) = .ok ut)
    (hcl : g.LocalBackendClusterName ≠ "") :
    (GenRouteConfig X helpers.GenRoutesForMethod g).1 =
      ([{ Match := { HttpMethod := X.GET, UriTemplate := ut }
          Cluster := g.LocalBackendClusterName
          Timeout := X.DefaultResponseDeadline
          OperationId :=
            g.ESPOperationAPI ++ "." ++ g.AutogeneratedOperationPrefix ++ "_HealthCheck" }],
        none) ∧
    (GenRouteConfig X helpers.GenRoutesForMethod g).1.1.length = 1 := by
  rw [GenRouteConfig_of_ok X helpers.GenRoutesForMethod g ut h]
  simp [helpers.GenRoutesForMethod, healthCheckMethodCfg, hcl]

theorem C8_one_route_descriptor_witness :
    statusGenerator.HealthzPath ≠ "" ∧
    (sampleExternals GenError).ParseUriTemplate
      (normalizedHealthzPath statusGenerator.HealthzPath) = .ok "/status" ∧
    statusGenerator.LocalBackendClusterName ≠ "" ∧
    (GenRouteConfig (sampleExternals GenError) helpers.GenRoutesForMethod statusGenerator).1 =
      ([{ Match := { HttpMethod := "GET", UriTemplate := "/status" }
          Cluster := "backend-cluster"
          Timeout := 15
          OperationId := "myapi.endpoints.example.com.Autogen_HealthCheck" }],
        none) ∧
    (GenRouteConfig (sampleExternals GenError) helpers.GenRoutesForMethod
      statusGenerator).1.1.length = 1 :=
  ⟨by decide, rfl, by decide,
    C8_one_route_descriptor (sampleExternals GenError) statusGenerator "/status"
      (by decide) rfl (by decide)⟩

/-- C8 as stated fails: a generator with the non-empty, compilable path "/status" and
an empty local cluster name gets `GenerationError` and no route from the route builder
of the specification, so the returned list does not have length 1. -/
theorem C8_counterexample_empty_cluster :
    noClusterGenerator.HealthzPath ≠ "" ∧
    (sampleExternals GenError).ParseUriTemplate
      (normalizedHealthzPath noClusterGenerator.HealthzPath) = .ok "/status" ∧
    (GenRouteConfig (sampleExternals GenError) helpers.GenRoutesForMethod noClusterGenerator).1 =
      ([], some GenError.GenerationError) ∧
    (GenRouteConfig (sampleExternals GenError) helpers.GenRoutesForMethod
      noClusterGenerator).1.1.length ≠ 1 :=
  ⟨by decide, rfl, rfl, by decide⟩

/-- C9: when the normalised path compiles, `GenRouteConfig` returns exactly the pair
(routes, error) that the route builder returns for the constructed `MethodCfg`;
`GenRouteConfig` returns an error if and only if the compiler fails on the normalised
path or the builder returns an error for that `MethodCfg`; and the generator is the
same after the call as before. -/
theorem C9_delegation (X : Externals Svc Other BRG UT Dur Err)
    (gen : BRG → MethodCfg UT Dur → List Route × Option Err) (g : HealthCheckGenerator BRG) :
    (∀ ut : UT, X.ParseUriTemplate (normalizedHealthzPath g.HealthzPath) = .ok ut →
      ∃ cfg : MethodCfg UT Dur, HandsOver X g cfg ∧
        (GenRouteConfig X gen g).1 = gen g.BackendRouteGen cfg) ∧
    ((GenRouteConfig X gen g).1.2 ≠ none ↔
      (∃ err : Err, X.ParseUriTemplate (normalizedHealthzPath g.HealthzPath) = .error err) ∨
      (∃ (ut : UT) (cfg : MethodCfg UT Dur),
        X.ParseUriTemplate (normalizedHealthzPath g.HealthzPath) = .ok ut ∧
        HandsOver X g cfg ∧ (gen g.BackendRouteGen cfg).2 ≠ none)) ∧
    (GenRouteConfig X gen g).2 = g := by
  refine ⟨?_, ?_, ?_⟩
  · intro ut h
    refine ⟨healthCheckMethodCfg X g ut, handsOver_of_ok X g ut h, ?_⟩
    rw [GenRouteConfig_of_ok X gen g ut h]
  · cases h : X.ParseUriTemplate (normalizedHealthzPath g.HealthzPath) with
    | error err =>
      rw [GenRouteConfig_of_error X gen g err h]
      simp
    | ok ut =>
      rw [GenRouteConfig_of_ok X gen g ut h]
      constructor
      · intro hf
        exact Or.inr ⟨ut, healthCheckMethodCfg X g ut, rfl, handsOver_of_ok X g ut h, hf⟩
      · rintro (⟨err, he⟩ | ⟨ut', cfg, _, hcfg, hf⟩)
        · cases he
        · have e := HandsOver_unique X g _ _ (handsOver_of_ok X g ut h) hcfg
          rw [e]
          exact hf
  · rw [GenRouteConfig_normalized]
    cases X.ParseUriTemplate (normalizedHealthzPath g.HealthzPath) <;> rfl

theorem C9_delegation_witness :
    (GenRouteConfig (sampleExternals GenError) helpers.GenRoutesForMethod noClusterGenerator).1 =
      helpers.GenRoutesForMethod () (healthCheckMethodCfg (sampleExternals GenError)
        noClusterGenerator "/status") ∧
    (GenRouteConfig (sampleExternals GenError) helpers.GenRoutesForMethod
      noClusterGenerator).1.2 ≠ none ∧
    (GenRouteConfig (sampleExternals GenError) helpers.GenRoutesForMethod noClusterGenerator).2 =
      noClusterGenerator :=
  ⟨rfl,
    (C9_delegation (sampleExternals GenError) helpers.GenRoutesForMethod
      noClusterGenerator).2.1.mpr
      (Or.inr ⟨"/status", healthCheckMethodCfg (sampleExternals GenError) noClusterGenerator
        "/status", rfl, handsOver_of_ok _ _ _ rfl, fun hnone => Option.noConfusion hnone⟩),
    (C9_delegation (sampleExternals GenError) helpers.GenRoutesForMethod
      noClusterGenerator).2.2⟩

/-- C10: the string `GenRouteConfig` gives to the compiler (the result depends on the
compiler only through its value there) is never empty and begins with "/"; a generator
built directly with `HealthzPath = ""` compiles "/" and, when that compiles, returns
what the builder returns, which may be a non-empty list of routes; the factory is what
skips the empty path. -/
theorem C10_compiled_path_nonempty (X : Externals Svc Other BRG UT Dur Err)
    (g : HealthCheckGenerator BRG) :
    normalizedHealthzPath g.HealthzPath ≠ "" ∧
    strings.HasPrefix (normalizedHealthzPath g.HealthzPath) "/" = true ∧
    (∀ (Route : Type) (gen : BRG → MethodCfg UT Dur → List Route × Option Err),
      GenRouteConfig X gen g =
        match X.ParseUriTemplate (normalizedHealthzPath g.HealthzPath) with
        | .error err => (([], some err), g)
        | .ok ut => (gen g.BackendRouteGen (healthCheckMethodCfg X g ut), g)) ∧
    (g.HealthzPath = "" →
      normalizedHealthzPath g.HealthzPath = "/" ∧
      ∀ ut : UT, X.ParseUriTemplate "/" = .ok ut →
        (∃ cfg : MethodCfg UT Dur, HandsOver X g cfg ∧ cfg.HTTPPattern.UriTemplate = ut) ∧
        (GenRouteConfig X echoBuilder g).1 = ([healthCheckMethodCfg X g ut], none)) ∧
    (∀ (serviceConfig : Svc) (opts : ConfigGeneratorOptions Other),
      opts.Healthz = "" → NewHealthCheckRouteGensFromOPConfig X serviceConfig opts = ([], none)) := by
  have hpre := hasPrefix_normalizedHealthzPath g.HealthzPath
  refine ⟨?_, hpre, ?_, ?_, ?_⟩
  · intro hempty
    rw [hempty] at hpre
    exact absurd hpre (by decide)
  · intro Route gen
    exact GenRouteConfig_normalized X gen g
  · intro hg
    have hn : normalizedHealthzPath g.HealthzPath = "/" := by rw [hg]; rfl
    refine ⟨hn, ?_⟩
    intro ut hut
    have hok : X.ParseUriTemplate (normalizedHealthzPath g.HealthzPath) = .ok ut := by
      rw [hn]; exact hut
    refine ⟨⟨healthCheckMethodCfg X g ut, handsOver_of_ok X g ut hok, rfl⟩, ?_⟩
    rw [GenRouteConfig_of_ok X echoBuilder g ut hok]
    rfl
  · intro serviceConfig opts hopts
    simp [NewHealthCheckRouteGensFromOPConfig, hopts]

theorem C10_compiled_path_nonempty_witness :
    normalizedHealthzPath emptyPathGenerator.HealthzPath = "/" ∧
    (GenRouteConfig (sampleExternals String) echoBuilder emptyPathGenerator).1 =
      ([healthCheckMethodCfg (sampleExternals String) emptyPathGenerator "/"], none) ∧
    NewHealthCheckRouteGensFromOPConfig (sampleExternals String) () (sampleOptions "")
      = ([], none) :=
  ⟨((C10_compiled_path_nonempty (sampleExternals String) emptyPathGenerator).2.2.2.1 rfl).1,
    (((C10_compiled_path_nonempty (sampleExternals String) emptyPathGenerator).2.2.2.1 rfl).2
      "/" rfl).2,
    (C10_compiled_path_nonempty (sampleExternals String) emptyPathGenerator).2.2.2.2
      () (sampleOptions "") rfl⟩

end Theorems

end Routegen
